import Mathlib

/-!
Verification of the content-acquisition and prompt-orchestration pipeline of
the Gemini summarization service (`app/services.py`, `app/router.py`,
`app/dependencies.py`, `app/exceptions.py`, `app/schemas.py`).

The service functions are shallowly embedded as pure Lean functions.  The
external collaborators (the httpx network client, the BeautifulSoup HTML
parser, the urllib URL resolver and the Gemini model client) are passed in as
an explicit environment of oracle functions; each service function returns an
`Except`-typed outcome together with the trace of network and model calls it
issued, so that theorems can speak about which requests were made and with
which configuration.
-/

set_option maxRecDepth 4000

deriving instance DecidableEq for Except

/-- A sequence of bytes (a Python `bytes` value). -/
abbrev Blob := List Nat

/-- A decimal literal as written in the Python source (`0.2`, `30.0`):
`mantissa / 10 ^ exponent`.  Kept unevaluated so that equality of
configuration values is syntactic equality of the source literals. -/
structure PyFloat where
  mantissa : Int
  exponent : Nat
  deriving DecidableEq, Repr

/-- The literal `0.2`. -/
def lit0p2 : PyFloat := { mantissa := 2, exponent := 1 }

/-- The literal `30.0`. -/
def lit30p0 : PyFloat := { mantissa := 300, exponent := 1 }

/-- ASCII lowercasing of one character, as applied by Python `str.lower()`
to the ASCII header and content-type strings handled here. -/
def pyLowerChar (c : Char) : Char :=
  if 65 ≤ c.toNat && c.toNat ≤ 90 then Char.ofNat (c.toNat + 32) else c

/-- Python `str.lower()` (ASCII range). -/
def pyLower (s : String) : String :=
  String.mk (s.data.map pyLowerChar)

/-- Python `text.replace('\n', ' ')`: the pattern is the single newline
character, so the replacement is a per-character map. -/
def pyReplaceNl (s : String) : String :=
  String.mk (s.data.map (fun c => if c = '\n' then ' ' else c))

/-- Python whitespace, as recognized by `str.strip()`. -/
def isPySpace (c : Char) : Bool :=
  c = ' ' || c = '\t' || c = '\n' || c = '\r' || c = '\x0b' || c = '\x0c'

/-- Python `str.strip()`: surrounding whitespace removed. -/
def pyStrip (s : String) : String :=
  String.mk (((s.data.dropWhile isPySpace).reverse.dropWhile isPySpace).reverse)

/-- Accumulates the value of a digit string; `none` on a non-digit. -/
def digitsValAux : List Char → Nat → Option Nat
  | [], acc => some acc
  | c :: rest, acc =>
    if c.isDigit then digitsValAux rest (acc * 10 + (c.toNat - 48)) else none

/-- The value of a non-empty all-digit character list. -/
def digitsVal : List Char → Option Nat
  | [] => none
  | l => digitsValAux l 0

/-- Python `int(s)` on a string: surrounding whitespace is ignored, an
optional sign precedes the digits; anything else raises `ValueError`
(`none` here). -/
def pyInt? (s : String) : Option Int :=
  match (pyStrip s).data with
  | '-' :: rest => (digitsVal rest).map (fun n => -(n : Int))
  | '+' :: rest => (digitsVal rest).map (fun n => (n : Int))
  | l => (digitsVal l).map (fun n => (n : Int))

/-- Substring test on lists of characters: the Python `in` operator on
strings (`"application/pdf" in content_type`). -/
def containsSubAux (pat : List Char) : List Char → Bool
  | [] => pat.isEmpty
  | c :: rest => List.isPrefixOf pat (c :: rest) || containsSubAux pat rest

/-- `containsSub s pat` is the Python expression `pat in s`. -/
def containsSub (s pat : String) : Bool :=
  containsSubAux pat.data s.data

/-- Python truthiness of an optional string (`if length:`): `None` and the
empty string are falsy. -/
def pyTruthy : Option String → Bool
  | none => false
  | some s => s ≠ ""

/-- Python `str()` applied to an `Optional[int]`: `str(None)` is the literal
string `None`. -/
def pyStr : Option Int → String
  | none => "None"
  | some n => toString n

/-- The single quote character, written by code point to mirror the quoting
inside the source f-strings. -/
def squote : String := (Char.ofNat 39).toString

/-! ## Error taxonomy

Python exception values reachable from the embedded code.  `urlAccessError`
embeds `app/exceptions.py` (`URLAccessError(url, status_code)`); it is part
of the repository but, as proved below, never raised by `app/services.py`.
`httpStatusError` is `httpx.HTTPStatusError` as raised by
`response.raise_for_status()`; `requestError` is `httpx.RequestError`.
`validationError` is a pydantic `ValidationError` (a `ValueError` subclass);
`attributeError` is the `AttributeError` raised by attribute access on
`None`.  `httpException` is the fastapi `HTTPException(status_code, detail)`
raised by `app/dependencies.py`. -/
inductive PyError where
  | valueError (msg : String)
  | runtimeError (msg : String)
  | httpStatusError (url : String) (status : Nat)
  | urlAccessError (url : String) (status : Nat)
  | requestError (msg : String)
  | validationError (msg : String)
  | attributeError (msg : String)
  | httpException (status : Nat) (detail : String)
  deriving DecidableEq, Repr

/-! ## The generative-model client interface (`google.genai`) -/

/-- `app/schemas.py`: the pydantic sub-model `UsageMetadata` with three
required `int` fields. -/
structure UsageMetadata where
  prompt_token_count : Int
  candidates_token_count : Int
  total_token_count : Int
  deriving DecidableEq, Repr

/-- The provider-side usage metadata object
(`GenerateContentResponseUsageMetadata` of the google-genai library), whose
counters are all `Optional[int]`. -/
structure UsageMetadataRaw where
  prompt_token_count : Option Int
  candidates_token_count : Option Int
  total_token_count : Option Int
  deriving DecidableEq, Repr

/-- The parsed structured object (`response.parsed`) when a response schema
was requested: the title+summary shape of `schemas.EnhancedSummaryResponse`. -/
structure ParsedSummary where
  title : String
  summary : String
  deriving DecidableEq, Repr

/-- The google-genai `GenerateContentResponse`, restricted to the fields the
repository reads: `.text`, `.parsed` and `.usage_metadata`. -/
structure GenerateContentResponse where
  text : String
  parsed : Option ParsedSummary
  usage_metadata : Option UsageMetadataRaw
  deriving DecidableEq, Repr

/-- The schema classes that can be bound to a generation request; the
repository only ever binds `schemas.EnhancedSummaryResponse`. -/
inductive ResponseSchema where
  | enhancedSummaryResponse
  deriving DecidableEq, Repr

/-- `types.GenerateContentConfig` restricted to the fields the repository
sets: system instruction, temperature, response MIME type and response
schema (the latter two are absent in free-text mode). -/
structure GenerateContentConfig where
  system_instruction : String
  temperature : PyFloat
  response_mime_type : Option String := none
  response_schema : Option ResponseSchema := none
  deriving DecidableEq, Repr

/-- The dynamically-typed value handed to `types.Part.from_bytes` as `data=`:
a bytes object when iterating a `list[bytes]`, a single integer when a raw
`bytes` value is (erroneously) iterated in its place. -/
inductive PyData where
  | blob (b : Blob)
  | byte (n : Nat)
  deriving DecidableEq, Repr

/-- One element of the `contents` list of a generation request. -/
inductive GenPart where
  | textPart (s : String)
  | bytesPart (data : PyData) (mime_type : String)
  deriving DecidableEq, Repr

/-- One call to `client.aio.models.generate_content`. -/
structure ModelCall where
  model : String
  contents : List GenPart
  config : GenerateContentConfig
  deriving DecidableEq, Repr

/-! ## The httpx network interface -/

inductive HttpMethod where
  | get
  | head
  deriving DecidableEq, Repr

/-- One outgoing httpx request, with the keyword arguments the repository
passes (`timeout`, `follow_redirects`, `headers`). -/
structure HttpRequest where
  method : HttpMethod
  url : String
  timeout : PyFloat
  follow_redirects : Bool
  headers : List (String × String)
  deriving DecidableEq, Repr

/-- An httpx response, restricted to the fields the repository reads. -/
structure HttpResponse where
  status_code : Nat
  headers : List (String × String)
  content : Blob
  deriving DecidableEq, Repr

/-- Case-insensitive header lookup (`response.headers.get(name)`; httpx
header maps are case-insensitive). -/
def headerGet (hs : List (String × String)) (name : String) : Option String :=
  (hs.find? (fun kv => pyLower kv.fst = pyLower name)).map (fun kv => kv.snd)

/-- `response.is_success`, the predicate behind `raise_for_status`. -/
def is_success (status : Nat) : Bool :=
  200 ≤ status && status < 300

/-- The view of a parsed HTML document that `summarize_url` extracts through
BeautifulSoup: the result of
`soup.find("embed", attrs={"type": "application/pdf"})` — outer `Option` for
the tag being found, inner `Option` for its `src` attribute — and the text
produced by decomposing script/style/nav/footer/header/aside/iframe elements
and calling `get_text(separator=' ', strip=True)`. -/
structure HtmlView where
  embed_tag : Option (Option String)
  extractedText : String
  deriving DecidableEq, Repr

/-- An event on a request trace: an outgoing HTTP request or an outgoing
model invocation. -/
inductive Event where
  | http (r : HttpRequest)
  | gen (c : ModelCall)
  deriving DecidableEq, Repr

/-- The environment of external collaborators: the httpx client, the Gemini
client, BeautifulSoup and `urllib.parse.urljoin`.  `net` and `model` return
`.error` when the library call raises (`httpx.RequestError` respectively a
provider-side exception). -/
structure Env where
  net : HttpRequest → Except String HttpResponse
  model : ModelCall → Except String GenerateContentResponse
  html : Blob → HtmlView
  urljoin : String → String → String

/-! ## `app/services.py` -/

/-- `services.MODEL_ID`. -/
def MODEL_ID : String := "gemini-2.5-flash-lite-preview-06-17"

/-- `services.HEADERS`. -/
def HEADERS : List (String × String) :=
  [("User-Agent", "Mozilla/5.0 (Windows NT 10.0; Win64; x64) AppleWebKit/537.36 (KHTML, like Gecko) Chrome/126.0.0.0 Safari/537.36")]

/-- `length_map.get(length, 'medium')` in `build_dynamic_instruction`: the
lookup table is keyed by the lowercase strings; any other key falls back to
the literal string `medium`. -/
def length_map_get (length : String) : String :=
  if length = "short" then "in a single, concise paragraph (around 100 words)"
  else if length = "medium" then "in about three paragraphs (around 300 words)"
  else if length = "detailed" then "as a detailed summary (around 500 words)"
  else "medium"

/-- The `instructions` list built by `services.build_dynamic_instruction`
before the final newline join. -/
def build_dynamic_instruction_list (length tone : Option String)
    (is_json_mode : Bool := true) : List String :=
  ["You are an expert summarizer. Your task is to produce a summary and a compelling title for the given content."]
  ++ (if is_json_mode then ["Your final output MUST be a JSON object matching the provided schema."] else [])
  ++ (if pyTruthy length then ["The summary's length should be " ++ length_map_get (length.getD "") ++ "."] else [])
  ++ (if pyTruthy tone then ["The tone of your writing must be " ++ tone.getD "" ++ "."] else [])

/-- `services.build_dynamic_instruction(length, tone, is_json_mode)`:
`"\n".join(instructions)`. -/
def build_dynamic_instruction (length tone : Option String)
    (is_json_mode : Bool := true) : String :=
  String.intercalate "\n" (build_dynamic_instruction_list length tone is_json_mode)

/-- The single model call issued by `services.summarize_text` on (already
newline-collapsed) text. -/
def textCall (processed_text : String) (length tone : Option String) : ModelCall :=
  { model := MODEL_ID
    contents := [GenPart.textPart ("Generate a summary and title for this text:\n\n" ++ processed_text)]
    config :=
      { system_instruction := build_dynamic_instruction length tone
        temperature := lit0p2
        response_mime_type := some "application/json"
        response_schema := some ResponseSchema.enhancedSummaryResponse } }

/-- `services.summarize_text(text, length, tone)`.  Returns the outcome and
the trace of model calls issued.  The empty-input `ValueError` is raised
before the `try` block; every exception inside the `try` block is re-raised
as `RuntimeError("Failed to get a summary from the API.")`. -/
def summarize_text (env : Env) (text : String) (length tone : Option String) :
    Except PyError GenerateContentResponse × List Event :=
  let processed_text := pyReplaceNl text
  if processed_text = "" then
    (Except.error (PyError.valueError "Input text cannot be empty."), [])
  else
    let call := textCall processed_text length tone
    match env.model call with
    | Except.ok resp => (Except.ok resp, [Event.gen call])
    | Except.error _ =>
        (Except.error (PyError.runtimeError "Failed to get a summary from the API."), [Event.gen call])

/-- The dynamically-typed first argument of `services.summarize_pdf_files`:
a `list[bytes]` when called from the upload endpoint, a raw `bytes` value
when called from `summarize_url` (which passes `response.content` where a
list is expected). -/
inductive PyFiles where
  | list (bs : List Blob)
  | bytes (b : Blob)
  deriving DecidableEq, Repr

/-- Python falsiness of the argument (`if not file_contents:`). -/
def PyFiles.isEmptyPy : PyFiles → Bool
  | PyFiles.list bs => bs.isEmpty
  | PyFiles.bytes b => b.isEmpty

/-- Python `len(file_contents)`. -/
def PyFiles.len : PyFiles → Nat
  | PyFiles.list bs => bs.length
  | PyFiles.bytes b => b.length

/-- The parts appended by `for content in file_contents:
prompt_parts.append(types.Part.from_bytes(data=content, mime_type=...))`;
iterating a `bytes` value yields integers. -/
def PyFiles.parts (mime_type : String) : PyFiles → List GenPart
  | PyFiles.list bs => bs.map (fun b => GenPart.bytesPart (PyData.blob b) mime_type)
  | PyFiles.bytes b => b.map (fun n => GenPart.bytesPart (PyData.byte n) mime_type)

/-- The step-1 (plain-text, non-JSON) model call of
`services.summarize_pdf_files`. -/
def pdfStepOneCall (file_contents : PyFiles) (length tone : Option String)
    (mime_type : String) : ModelCall :=
  { model := MODEL_ID
    contents :=
      GenPart.textPart
        (if file_contents.len = 1 then
          "Please provide a detailed summary of this document."
        else
          "Please provide a detailed summary that synthesizes the key information from all of the following documents.")
      :: file_contents.parts mime_type
    config :=
      { system_instruction := build_dynamic_instruction length tone false
        temperature := lit0p2 } }

/-- The `except Exception` clause of `services.summarize_pdf_files`: every
exception raised inside the `try` block (including those propagating out of
the nested `summarize_text` call) is re-raised as a `RuntimeError`. -/
def wrapPdf (r : Except PyError GenerateContentResponse) :
    Except PyError GenerateContentResponse :=
  match r with
  | Except.ok resp => Except.ok resp
  | Except.error _ =>
      Except.error (PyError.runtimeError "Failed to process the PDF files with the API.")

/-- `services.summarize_pdf_files(file_contents, length, tone, mime_type)`:
the two-step pipeline.  Step 1 issues a free-text (no response schema, no
JSON MIME type) call on the binary parts; step 2 feeds the step-1 narrative
text to `summarize_text` with `length=None, tone=None` and returns its
response verbatim. -/
def summarize_pdf_files (env : Env) (file_contents : PyFiles)
    (length tone : Option String) (mime_type : String := "application/pdf") :
    Except PyError GenerateContentResponse × List Event :=
  if file_contents.isEmptyPy then
    (Except.error (PyError.valueError "No file content was provided."), [])
  else
    let call1 := pdfStepOneCall file_contents length tone mime_type
    match env.model call1 with
    | Except.error _ =>
        (Except.error (PyError.runtimeError "Failed to process the PDF files with the API."),
         [Event.gen call1])
    | Except.ok text_response =>
        let rt := summarize_text env text_response.text none none
        (wrapPdf rt.fst, Event.gen call1 :: rt.snd)

/-- The main `GET` issued by `services.summarize_url`
(`http_client.get(url, timeout=30.0, follow_redirects=True, headers=HEADERS)`). -/
def mainRequest (url : String) : HttpRequest :=
  { method := HttpMethod.get, url := url, timeout := lit30p0
    follow_redirects := true, headers := HEADERS }

/-- The embedded-PDF `GET` issued by `services.summarize_url`
(`pdf_http_client.get(pdf_url, timeout=30.0, headers=HEADERS)`;
`follow_redirects` is left at its default `False` and no status check is
performed on the result). -/
def pdfRequest (url : String) : HttpRequest :=
  { method := HttpMethod.get, url := url, timeout := lit30p0
    follow_redirects := false, headers := HEADERS }

/-- `services.summarize_url(url, length, tone)`.  Only `httpx.RequestError`
is caught (and re-raised as a `ValueError` naming the URL); the
`httpx.HTTPStatusError` raised by `raise_for_status` on a non-success
status, and every error propagating from the nested summarizers, pass
through unchanged. -/
def summarize_url (env : Env) (url : String) (length tone : Option String) :
    Except PyError GenerateContentResponse × List Event :=
  let req := mainRequest url
  match env.net req with
  | Except.error _ =>
      (Except.error (PyError.valueError ("Could not fetch or process the URL: " ++ url)),
       [Event.http req])
  | Except.ok response =>
    if is_success response.status_code = false then
      (Except.error (PyError.httpStatusError url response.status_code), [Event.http req])
    else
      let content_type := pyLower ((headerGet response.headers "Content-Type").getD "")
      if containsSub content_type "application/pdf" then
        let rt := summarize_pdf_files env (PyFiles.bytes response.content) length tone
        (rt.fst, Event.http req :: rt.snd)
      else if containsSub content_type "text/html" then
        let view := env.html response.content
        let src_ok :=
          match view.embed_tag with
          | some (some src) => if src ≠ "" then some src else none
          | _ => none
        match src_ok with
        | some src =>
          let pdf_url := env.urljoin url src
          let preq := pdfRequest pdf_url
          (match env.net preq with
           | Except.error _ =>
               (Except.error (PyError.valueError ("Could not fetch or process the URL: " ++ url)),
                [Event.http req, Event.http preq])
           | Except.ok pdf_response =>
               let rt := summarize_pdf_files env (PyFiles.bytes pdf_response.content) length tone
               (rt.fst, Event.http req :: Event.http preq :: rt.snd))
        | none =>
          let text := view.extractedText
          if text = "" then
            (Except.error (PyError.valueError "Could not extract meaningful text."), [Event.http req])
          else
            let rt := summarize_text env text length tone
            (rt.fst, Event.http req :: rt.snd)
      else
        (Except.error (PyError.valueError
          ("Unsupported content type " ++ squote ++ content_type ++ squote ++ ".")),
         [Event.http req])

/-! ## `app/dependencies.py` -/

/-- `dependencies.MAX_REQUEST_SIZE` (15 MiB). -/
def MAX_REQUEST_SIZE : Int := 15 * 1024 * 1024

/-- `dependencies.limit_content_length`, as a function of the inbound
Content-Length header.  An absent (or falsy, i.e. empty) header lets the
request proceed; an unparsable header yields HTTP 400; a parsed size above
`MAX_REQUEST_SIZE` yields HTTP 413.  The detail string renders the
`{MAX_REQUEST_SIZE / (1024*1024):.2f}` format expression of the source. -/
def limit_content_length (content_length : Option String) : Except PyError Unit :=
  match content_length with
  | none => Except.ok ()
  | some cl =>
    if cl = "" then Except.ok ()
    else
      match pyInt? cl with
      | none => Except.error (PyError.httpException 400 "Invalid Content-Length header.")
      | some size =>
        if size > MAX_REQUEST_SIZE then
          Except.error (PyError.httpException 413 "Request payload is too large. Limit is 15.00 MB.")
        else Except.ok ()

/-! ## `app/router.py` -/

/-- The construction `schemas.UsageMetadata(prompt_token_count=...,
candidates_token_count=..., total_token_count=...)` performed by the
endpoints on `gemini_response.usage_metadata`.  Attribute access on an
absent (`None`) usage metadata raises `AttributeError`; a `None` counter is
rejected by the required pydantic `int` fields with a `ValidationError`
(a `ValueError` subclass, hence mapped to HTTP 400 by the endpoints). -/
def usage_data_of_response (resp : GenerateContentResponse) :
    Except PyError UsageMetadata :=
  match resp.usage_metadata with
  | none =>
      Except.error (PyError.attributeError
        "NoneType object has no attribute prompt_token_count")
  | some um =>
    match um.prompt_token_count, um.candidates_token_count, um.total_token_count with
    | some p, some c, some t => Except.ok { prompt_token_count := p, candidates_token_count := c, total_token_count := t }
    | _, _, _ =>
        Except.error (PyError.validationError
          "Input should be a valid integer (type=int_type)")

/-- The header dictionary built by `router.build_response`: the attachment
disposition plus the three token-count headers, each rendered with Python
`str()` (so an omitted counter appears as the literal string `None`).
Attribute access on an absent usage metadata raises `AttributeError` here as
well. -/
def build_response_headers (output_format : String)
    (resp : GenerateContentResponse) : Except PyError (List (String × String)) :=
  match resp.usage_metadata with
  | none =>
      Except.error (PyError.attributeError
        "NoneType object has no attribute prompt_token_count")
  | some um =>
      Except.ok
        [("Content-Disposition", "attachment; filename=\"ketqua." ++ output_format ++ "\""),
         ("X-Prompt-Tokens", pyStr um.prompt_token_count),
         ("X-Candidates-Tokens", pyStr um.candidates_token_count),
         ("X-Total-Tokens", pyStr um.total_token_count)]

/-- `router.LengthOption`: the query-parameter enum whose values are the
capitalized strings `Short`, `Medium`, `Detailed`. -/
inductive LengthOption where
  | short
  | medium
  | detailed
  deriving DecidableEq, Repr

/-- The string value of a `LengthOption` member (the value used by dict
lookup and string formatting on the str-mixin enum). -/
def LengthOption.val : LengthOption → String
  | LengthOption.short => "Short"
  | LengthOption.medium => "Medium"
  | LengthOption.detailed => "Detailed"

/-- `router.ToneOption`: the query-parameter enum of tone phrases. -/
inductive ToneOption where
  | professional
  | casual
  | simple
  | technical
  deriving DecidableEq, Repr

/-- The string value of a `ToneOption` member. -/
def ToneOption.val : ToneOption → String
  | ToneOption.professional => "Professional"
  | ToneOption.casual => "Casual"
  | ToneOption.simple => "Simple, for a general audience"
  | ToneOption.technical => "Technical, for an expert audience"

/-! ## The custom-instruction generation mode (modelled from the spec)

`app/router.py` passes a fourth `custom_prompt` argument to each service
function, but the revision of `app/services.py` present in the sources does
not accept it: the custom-instruction-aware revision of the service layer is
absent.  The mode selection it performs is therefore modelled from the
specification. -/

/-- The two generation modes of the spec data model. -/
inductive GenerationMode where
  | Structured
  | FreeText
  deriving DecidableEq, Repr

/-- Blankness of an optional custom instruction: absent, or trimming to the
empty string. -/
def pyBlank : Option String → Bool
  | none => true
  | some s => pyStrip s = ""

/-- Modelled from the spec: the generation-mode selection of the
custom-instruction-aware `summarize_text` revision invoked by `router.py`
(absent from the sources).  Per the spec, the mode is determined solely by
whether a custom instruction was supplied and non-blank: non-blank means
FreeText, blank or absent means Structured. -/
def generation_mode (custom_prompt : Option String) : GenerationMode :=
  if pyBlank custom_prompt then GenerationMode.Structured else GenerationMode.FreeText

/-- Modelled from the spec: the generation configuration built by the
custom-instruction-aware `summarize_text` revision (absent from the
sources).  In FreeText mode the trimmed custom instruction is the system
instruction and the response is unconstrained; in Structured mode the
canonical summarization directive is used and the response is bound to the
title+summary schema with the JSON MIME type. -/
def specModeConfig (length tone custom_prompt : Option String) :
    GenerateContentConfig :=
  match generation_mode custom_prompt with
  | GenerationMode.FreeText =>
      { system_instruction := pyStrip (custom_prompt.getD "")
        temperature := lit0p2 }
  | GenerationMode.Structured =>
      { system_instruction := build_dynamic_instruction length tone
        temperature := lit0p2
        response_mime_type := some "application/json"
        response_schema := some ResponseSchema.enhancedSummaryResponse }

/-- Modelled from the spec: the model call issued by the
custom-instruction-aware `summarize_text` revision (absent from the
sources) on non-empty input. -/
def summarize_text_with_prompt_call (processed_text : String)
    (length tone custom_prompt : Option String) : ModelCall :=
  { model := MODEL_ID
    contents := [GenPart.textPart ("Generate a summary and title for this text:\n\n" ++ processed_text)]
    config := specModeConfig length tone custom_prompt }

/-- Modelled from the spec: the custom-instruction-aware `summarize_text`
revision invoked by `router.py` (absent from the sources): it selects the
generation mode from the custom instruction alone and issues one model call
with the mode-appropriate configuration. -/
def summarize_text_with_prompt (env : Env) (text : String)
    (length tone custom_prompt : Option String) :
    Except PyError GenerateContentResponse × List Event :=
  let processed_text := pyReplaceNl text
  if processed_text = "" then
    (Except.error (PyError.valueError "Input text cannot be empty."), [])
  else
    let call := summarize_text_with_prompt_call processed_text length tone custom_prompt
    match env.model call with
    | Except.ok resp => (Except.ok resp, [Event.gen call])
    | Except.error _ =>
        (Except.error (PyError.runtimeError "Failed to get a summary from the API."), [Event.gen call])

/-! ## Concrete environments used by witnesses and counterexamples -/

/-- A canned free-text (narrative) model response. -/
def respNarrative : GenerateContentResponse :=
  { text := "A narrative summary of the documents."
    parsed := none
    usage_metadata := some { prompt_token_count := some 10, candidates_token_count := some 20, total_token_count := some 30 } }

/-- A canned structured model response carrying a parsed title+summary
object and usage counters. -/
def respStructured : GenerateContentResponse :=
  { text := "the structured title and summary body"
    parsed := some { title := "T", summary := "S" }
    usage_metadata := some { prompt_token_count := some 5, candidates_token_count := some 7, total_token_count := some 12 } }

/-- A deterministic model oracle: structured (JSON-MIME) calls get the
structured response, free-text calls get the narrative response. -/
def modelOracle : ModelCall → Except String GenerateContentResponse :=
  fun c =>
    if c.config.response_mime_type = some "application/json" then Except.ok respStructured
    else Except.ok respNarrative

/-- A small HTML page response. -/
def pageResp : HttpResponse :=
  { status_code := 200, headers := [("Content-Type", "text/html")], content := [60, 62] }

/-- A 404 response. -/
def resp404 : HttpResponse :=
  { status_code := 404, headers := [("Content-Type", "text/html")], content := [] }

/-- An HTML page response declaring a Content-Length of 99999999 bytes —
far above `MAX_REQUEST_SIZE`. -/
def bigResp : HttpResponse :=
  { status_code := 200
    headers := [("Content-Type", "text/html"), ("Content-Length", "99999999")]
    content := [60, 62] }

/-- A 404 response carrying a two-byte body, standing for a failed PDF
download. -/
def pdf404 : HttpResponse :=
  { status_code := 404, headers := [], content := [37, 80] }

/-- A baseline environment: every fetch yields a small HTML page, the parsed
page has no PDF embed and the text `Hello world`. -/
def env0 : Env :=
  { net := fun _ => Except.ok pageResp
    model := modelOracle
    html := fun _ => { embed_tag := none, extractedText := "Hello world" }
    urljoin := fun base rel => base ++ "/" ++ rel }

/-- An environment whose remote server answers every request with HTTP 404. -/
def env404 : Env :=
  { net := fun _ => Except.ok resp404
    model := modelOracle
    html := fun _ => { embed_tag := none, extractedText := "" }
    urljoin := fun base rel => base ++ "/" ++ rel }

/-- An environment whose remote resource declares a Content-Length far above
`MAX_REQUEST_SIZE` alongside an HTML body. -/
def envBig : Env :=
  { net := fun _ => Except.ok bigResp
    model := modelOracle
    html := fun _ => { embed_tag := none, extractedText := "Hello world" }
    urljoin := fun base rel => base ++ "/" ++ rel }

/-- An environment for the embedded-PDF route: the page URL serves HTML
whose parsed form carries `<embed type="application/pdf" src="doc.pdf">`,
and every other URL — in particular the resolved PDF URL — answers with
HTTP 404 and a two-byte body. -/
def envEmbed : Env :=
  { net := fun r => if r.url = "http://site/page" then Except.ok pageResp else Except.ok pdf404
    model := modelOracle
    html := fun _ => { embed_tag := some (some "doc.pdf"), extractedText := "visible page text" }
    urljoin := fun base rel => base ++ "/" ++ rel }

/-! ## Helper lemmas -/

/-- Whether an outcome is the repository exception `URLAccessError`. -/
def isURLAccess : Except PyError GenerateContentResponse → Bool
  | Except.error (PyError.urlAccessError _ _) => true
  | _ => false

/-- Whether a trace event is a header-only (HEAD) probe. -/
def eventIsHead : Event → Bool
  | Event.http r => r.method = HttpMethod.head
  | Event.gen _ => false

lemma summarize_text_not_urlAccess (env : Env) (text : String)
    (length tone : Option String) :
    isURLAccess (summarize_text env text length tone).fst = false := by
  unfold summarize_text
  dsimp only
  split
  · rfl
  · split <;> rfl

lemma wrapPdf_not_urlAccess (r : Except PyError GenerateContentResponse) :
    isURLAccess (wrapPdf r) = false := by
  unfold wrapPdf
  split <;> rfl

lemma summarize_pdf_files_not_urlAccess (env : Env) (fc : PyFiles)
    (length tone : Option String) (mime_type : String) :
    isURLAccess (summarize_pdf_files env fc length tone mime_type).fst = false := by
  unfold summarize_pdf_files
  dsimp only
  split
  · rfl
  · split
    · rfl
    · exact wrapPdf_not_urlAccess _

lemma summarize_url_not_urlAccess (env : Env) (url : String)
    (length tone : Option String) :
    isURLAccess (summarize_url env url length tone).fst = false := by
  unfold summarize_url
  dsimp only
  split
  · rfl
  · split
    · rfl
    · split
      · exact summarize_pdf_files_not_urlAccess _ _ _ _ _
      · split
        · split
          · split
            · rfl
            · exact summarize_pdf_files_not_urlAccess _ _ _ _ _
          · split
            · rfl
            · exact summarize_text_not_urlAccess _ _ _ _
        · rfl

lemma summarize_text_trace_events (env : Env) (text : String)
    (length tone : Option String) (e : Event)
    (he : e ∈ (summarize_text env text length tone).snd) :
    e = Event.gen (textCall (pyReplaceNl text) length tone) := by
  unfold summarize_text at he
  dsimp only at he
  split at he
  · simp at he
  · split at he <;> simpa using he

lemma summarize_pdf_files_trace_events (env : Env) (fc : PyFiles)
    (length tone : Option String) (mime_type : String) (e : Event)
    (he : e ∈ (summarize_pdf_files env fc length tone mime_type).snd) :
    (e = Event.gen (pdfStepOneCall fc length tone mime_type)) ∨
      (∃ s, e = Event.gen (textCall s none none)) := by
  unfold summarize_pdf_files at he
  dsimp only at he
  split at he
  · simp at he
  · split at he
    · simp at he
      exact Or.inl he
    · simp at he
      rcases he with he | he
      · exact Or.inl he
      · exact Or.inr ⟨_, summarize_text_trace_events _ _ _ _ _ he⟩

/-- In `summarize_text`, every model call carries the structured (schema
bound, JSON MIME) configuration. -/
lemma summarize_text_trace_structured (env : Env) (text : String)
    (length tone : Option String) (c : ModelCall)
    (hc : Event.gen c ∈ (summarize_text env text length tone).snd) :
    c.config.response_schema = some ResponseSchema.enhancedSummaryResponse ∧
      c.config.response_mime_type = some "application/json" := by
  have h := summarize_text_trace_events env text length tone _ hc
  have : c = textCall (pyReplaceNl text) length tone := by
    injection h
  subst this
  exact ⟨rfl, rfl⟩

/-! ## Claims -/

/-- Claim C1.  The claim states that on a non-success remote status,
summarize-url fails with the repository exception `URLAccessError` carrying
the URL and the status code, distinguishable from every other failure kind.
The code instead lets the library exception `httpx.HTTPStatusError` raised
by `raise_for_status` escape: the `except httpx.RequestError` clause does
not catch it, `URLAccessError` is raised nowhere in the sources, and the
dedicated `URLAccessError` handler in `router.py` is dead code.  First
conjunct: given a fetch with a non-success status, `summarize_url` fails
with `httpStatusError` carrying the URL and status.  Second conjunct:
`summarize_url` never fails with `urlAccessError` at all. -/
theorem claim_c1 :
    (∀ (env : Env) (url : String) (length tone : Option String) (resp : HttpResponse),
      env.net (mainRequest url) = Except.ok resp →
      is_success resp.status_code = false →
      summarize_url env url length tone =
        (Except.error (PyError.httpStatusError url resp.status_code),
         [Event.http (mainRequest url)]))
    ∧ (∀ (env : Env) (url : String) (length tone : Option String) (u : String) (s : Nat),
        (summarize_url env url length tone).fst ≠
          Except.error (PyError.urlAccessError u s)) := by
  constructor
  · intro env url length tone resp h1 h2
    unfold summarize_url
    dsimp only
    rw [h1]
    dsimp only
    rw [h2]
    rfl
  · intro env url length tone u s hcontra
    have h := summarize_url_not_urlAccess env url length tone
    rw [hcontra] at h
    simp [isURLAccess] at h

/-- Witness for C1: with the environment whose server answers 404,
`summarize_url` ends in `httpStatusError` with status 404. -/
theorem claim_c1_witness :
    summarize_url env404 "http://x" none none =
      (Except.error (PyError.httpStatusError "http://x" 404),
       [Event.http (mainRequest "http://x")]) :=
  claim_c1.1 env404 "http://x" none none resp404 rfl (by decide)

/-- Claim C2 (spec-modelled: the custom-instruction-aware revision of the
service layer invoked by `router.py` is absent from the sources; its mode
selection is modelled from the spec).  The generation mode is determined
solely by the custom instruction — FreeText exactly when it is supplied and
non-blank, Structured otherwise — and the model call issued carries the
title+summary response schema and JSON MIME type exactly in the Structured
(blank/absent custom instruction) case. -/
theorem claim_c2 :
    (∀ custom_prompt : Option String,
      (generation_mode custom_prompt = GenerationMode.FreeText ↔ pyBlank custom_prompt = false)
      ∧ (generation_mode custom_prompt = GenerationMode.Structured ↔ pyBlank custom_prompt = true))
    ∧ (∀ (env : Env) (text : String) (length tone custom_prompt : Option String) (c : ModelCall),
        Event.gen c ∈ (summarize_text_with_prompt env text length tone custom_prompt).snd →
        (c.config.response_schema = some ResponseSchema.enhancedSummaryResponse ↔
            pyBlank custom_prompt = true)
        ∧ (c.config.response_mime_type = some "application/json" ↔
            pyBlank custom_prompt = true)) := by
  constructor
  · intro custom_prompt
    unfold generation_mode
    cases h : pyBlank custom_prompt <;> simp
  · intro env text length tone custom_prompt c hc
    unfold summarize_text_with_prompt at hc
    dsimp only at hc
    split at hc
    · simp at hc
    · have hcall : c = summarize_text_with_prompt_call (pyReplaceNl text) length tone custom_prompt := by
        split at hc <;> (simp at hc; exact hc)
      subst hcall
      unfold summarize_text_with_prompt_call specModeConfig generation_mode
      cases h : pyBlank custom_prompt <;> simp

/-- Witness for C2: a non-blank custom instruction yields a schema-free,
MIME-free (free-text) call; the blank case is covered by the first
conjunct evaluated at `none`. -/
theorem claim_c2_witness :
    ((summarize_text_with_prompt_call "hi" none none (some "Translate to French")).config.response_schema
        = some ResponseSchema.enhancedSummaryResponse ↔
      pyBlank (some "Translate to French") = true)
    ∧ ((summarize_text_with_prompt_call "hi" none none (some "Translate to French")).config.response_mime_type
        = some "application/json" ↔
      pyBlank (some "Translate to French") = true) :=
  claim_c2.2 env0 "hi" none none (some "Translate to French")
    (summarize_text_with_prompt_call "hi" none none (some "Translate to French"))
    (by decide)

/-- Claim C3.  For every non-empty list of PDF byte-blobs,
`summarize_pdf_files` runs the two-step pipeline: step 1 is a free-text
call (no response schema, no JSON MIME type) whose contents are the
singular prompt for one document or the synthesis prompt for several,
followed by one binary part per blob; step 2 re-invokes `summarize_text`
(whose every call is schema-bound structured mode) on the step-1 narrative,
and the final outcome is that of step 2 (wrapped by the PDF error
handler). -/
theorem claim_c3 :
    ∀ (env : Env) (bs : List Blob) (length tone : Option String),
      bs ≠ [] →
      ((pdfStepOneCall (PyFiles.list bs) length tone "application/pdf").config.response_mime_type = none
        ∧ (pdfStepOneCall (PyFiles.list bs) length tone "application/pdf").config.response_schema = none
        ∧ (pdfStepOneCall (PyFiles.list bs) length tone "application/pdf").config.system_instruction
            = build_dynamic_instruction length tone false)
      ∧ (pdfStepOneCall (PyFiles.list bs) length tone "application/pdf").contents =
          GenPart.textPart
            (if bs.length = 1 then "Please provide a detailed summary of this document."
             else "Please provide a detailed summary that synthesizes the key information from all of the following documents.")
          :: bs.map (fun b => GenPart.bytesPart (PyData.blob b) "application/pdf")
      ∧ ∀ resp1 : GenerateContentResponse,
          env.model (pdfStepOneCall (PyFiles.list bs) length tone "application/pdf") = Except.ok resp1 →
          summarize_pdf_files env (PyFiles.list bs) length tone =
            (wrapPdf (summarize_text env resp1.text none none).fst,
             Event.gen (pdfStepOneCall (PyFiles.list bs) length tone "application/pdf")
               :: (summarize_text env resp1.text none none).snd)
          ∧ ∀ c : ModelCall,
              Event.gen c ∈ (summarize_text env resp1.text none none).snd →
              c.config.response_schema = some ResponseSchema.enhancedSummaryResponse ∧
                c.config.response_mime_type = some "application/json" := by
  intro env bs length tone hne
  refine ⟨⟨rfl, rfl, rfl⟩, rfl, ?_⟩
  intro resp1 h1
  constructor
  · have hni : (PyFiles.list bs).isEmptyPy = false := by
      simp [PyFiles.isEmptyPy, hne]
    unfold summarize_pdf_files
    rw [hni]
    dsimp only
    rw [h1]
    simp
  · intro c hc
    exact summarize_text_trace_structured env resp1.text none none c hc

/-- Witness for C3: one two-blob list run through the pipeline in the
baseline environment. -/
theorem claim_c3_witness :
    summarize_pdf_files env0 (PyFiles.list [[1, 2], [3]]) none none =
      (wrapPdf (summarize_text env0 respNarrative.text none none).fst,
       Event.gen (pdfStepOneCall (PyFiles.list [[1, 2], [3]]) none none "application/pdf")
         :: (summarize_text env0 respNarrative.text none none).snd) :=
  ((claim_c3 env0 [[1, 2], [3]] none none (by decide)).2.2 respNarrative (by decide)).1

/-- Counterexample for C4: the claim says whitespace-only input such as
`"   \n  "` fails with the empty-input error; in the baseline environment
`summarize_text` instead succeeds on that input (no trimming occurs — the
guard only fires on input that is empty after the newline-to-space
replacement, i.e. on the empty string). -/
theorem claim_c4_counterexample :
    (summarize_text env0 "   \n  " none none).fst = Except.ok respStructured
    ∧ (summarize_text env0 "   \n  " none none).snd =
        [Event.gen (textCall "      " none none)]
    ∧ (summarize_text env0 "" none none).fst =
        Except.error (PyError.valueError "Input text cannot be empty.") := by
  refine ⟨by decide, by decide, by decide⟩

/-- Claim C4 as amended: `summarize_text` fails with the empty-input
`ValueError` exactly when the input with newlines replaced by spaces is
empty — equivalently only on the empty string, since no trimming occurs —
and in exactly that case no model invocation is attempted; on any other
input (including whitespace-only input) a model invocation is issued. -/
theorem claim_c4 :
    ∀ (env : Env) (length tone : Option String) (text : String),
      ((summarize_text env text length tone).fst =
          Except.error (PyError.valueError "Input text cannot be empty.") ↔
        pyReplaceNl text = "")
      ∧ (pyReplaceNl text = "" → (summarize_text env text length tone).snd = [])
      ∧ (pyReplaceNl text ≠ "" →
          (summarize_text env text length tone).snd =
            [Event.gen (textCall (pyReplaceNl text) length tone)]) := by
  intro env length tone text
  unfold summarize_text
  dsimp only
  by_cases h : pyReplaceNl text = ""
  · rw [if_pos h]
    simp [h]
  · rw [if_neg h]
    refine ⟨?_, fun hc => absurd hc h, fun _ => ?_⟩
    · cases hm : env.model (textCall (pyReplaceNl text) length tone) <;> simp [hm, h]
    · cases hm : env.model (textCall (pyReplaceNl text) length tone) <;> simp [hm]

/-- Witness for C4: the guard and the trace at the empty string, and the
trace on a one-character input. -/
theorem claim_c4_witness :
    (summarize_text env0 "" none none).snd = []
    ∧ (summarize_text env0 "a" none none).snd =
        [Event.gen (textCall (pyReplaceNl "a") none none)] :=
  ⟨(claim_c4 env0 none none "").2.1 (by decide),
   (claim_c4 env0 none none "a").2.2 (by decide)⟩

/-- Counterexample for C5: with the supplied length value `Short` (the
value of the router enum member), the Structured-mode instruction does not
contain the one-paragraph phrase — the length table is keyed by the
lowercase `short` and the dict default is the literal string `medium` — and
the FreeText-mode instruction does contain a length directive rather than
none.  Stated both on the instruction line list and on the joined
instruction string. -/
theorem claim_c5_counterexample :
    build_dynamic_instruction_list (some "Short") none true =
        ["You are an expert summarizer. Your task is to produce a summary and a compelling title for the given content.",
         "Your final output MUST be a JSON object matching the provided schema.",
         "The summary's length should be medium."]
    ∧ containsSub (build_dynamic_instruction (some "Short") none true)
        "in a single, concise paragraph (around 100 words)" = false
    ∧ "The summary's length should be medium."
        ∈ build_dynamic_instruction_list (some "Short") none true
    ∧ containsSub (build_dynamic_instruction (some "Short") none false)
        "The summary's length should be" = true := by
  refine ⟨by decide, by decide, by decide, by decide⟩

/-- Claim C5 as amended: for every supplied length value of the router enum
(`Short`, `Medium`, `Detailed`) and every tone, the system instruction in
BOTH modes contains the fallback directive `The summary's length should be
medium.` — the capitalized enum values never match the lowercase-keyed
length table, whose matching phrases appear only for the lowercase strings
`short`, `medium`, `detailed` — and FreeText mode does not suppress the
length directive. -/
theorem claim_c5 :
    ∀ (lo : LengthOption) (t : Option ToneOption) (m : Bool),
      "The summary's length should be medium."
          ∈ build_dynamic_instruction_list (some lo.val) (t.map ToneOption.val) m
      ∧ "The summary's length should be in a single, concise paragraph (around 100 words)."
          ∉ build_dynamic_instruction_list (some lo.val) (t.map ToneOption.val) m
      ∧ "The summary's length should be in about three paragraphs (around 300 words)."
          ∉ build_dynamic_instruction_list (some lo.val) (t.map ToneOption.val) m
      ∧ "The summary's length should be as a detailed summary (around 500 words)."
          ∉ build_dynamic_instruction_list (some lo.val) (t.map ToneOption.val) m
      ∧ ("The summary's length should be " ++ length_map_get (pyLower lo.val) ++ ".")
          ∈ build_dynamic_instruction_list (some (pyLower lo.val)) (t.map ToneOption.val) m := by
  intro lo t m
  rcases t with _ | tv
  · cases lo <;> cases m <;> decide
  · cases tv <;> cases lo <;> cases m <;> decide

/-- Witness for C5: the fallback medium directive is present for the
`Short` enum value in Structured mode. -/
theorem claim_c5_witness :
    "The summary's length should be medium."
        ∈ build_dynamic_instruction_list (some LengthOption.short.val) ((none : Option ToneOption).map ToneOption.val) true :=
  (claim_c5 LengthOption.short none true).1

/-- Counterexample for C6: the claim says omitted provider counters are
replaced by zero without failure.  With the usage metadata absent the
extraction raises `AttributeError`; with a single absent counter the JSON
path fails pydantic validation instead of yielding a zero count, and the
header path renders the literal string `None`, not `0`. -/
theorem claim_c6_counterexample :
    usage_data_of_response
        { text := "x", parsed := none, usage_metadata := none } =
      Except.error (PyError.attributeError "NoneType object has no attribute prompt_token_count")
    ∧ usage_data_of_response
        { text := "x", parsed := none,
          usage_metadata := some { prompt_token_count := none, candidates_token_count := some 1, total_token_count := some 2 } } =
      Except.error (PyError.validationError "Input should be a valid integer (type=int_type)")
    ∧ build_response_headers "text"
        { text := "x", parsed := none,
          usage_metadata := some { prompt_token_count := none, candidates_token_count := some 1, total_token_count := some 2 } } =
      Except.ok
        [("Content-Disposition", "attachment; filename=\"ketqua.text\""),
         ("X-Prompt-Tokens", "None"),
         ("X-Candidates-Tokens", "1"),
         ("X-Total-Tokens", "2")] := by
  refine ⟨by decide, by decide, by decide⟩

/-- Claim C6 as amended: the endpoints read the usage counters directly off
the response with no zero fallback.  When all three counters are present
they are surfaced unchanged (JSON body and file-response headers alike);
when the usage metadata is absent both paths raise `AttributeError`; when a
counter is absent the JSON path fails pydantic validation while the header
path emits the literal string `None`. -/
theorem claim_c6 :
    ∀ (resp : GenerateContentResponse) (fmt : String),
      (resp.usage_metadata = none →
        usage_data_of_response resp =
          Except.error (PyError.attributeError "NoneType object has no attribute prompt_token_count")
        ∧ build_response_headers fmt resp =
          Except.error (PyError.attributeError "NoneType object has no attribute prompt_token_count"))
      ∧ (∀ p c t : Int,
          resp.usage_metadata = some { prompt_token_count := some p, candidates_token_count := some c, total_token_count := some t } →
          usage_data_of_response resp =
            Except.ok { prompt_token_count := p, candidates_token_count := c, total_token_count := t }
          ∧ build_response_headers fmt resp =
            Except.ok
              [("Content-Disposition", "attachment; filename=\"ketqua." ++ fmt ++ "\""),
               ("X-Prompt-Tokens", toString p),
               ("X-Candidates-Tokens", toString c),
               ("X-Total-Tokens", toString t)])
      ∧ (∀ um : UsageMetadataRaw,
          resp.usage_metadata = some um →
          um.prompt_token_count = none →
          usage_data_of_response resp =
            Except.error (PyError.validationError "Input should be a valid integer (type=int_type)")
          ∧ build_response_headers fmt resp =
            Except.ok
              [("Content-Disposition", "attachment; filename=\"ketqua." ++ fmt ++ "\""),
               ("X-Prompt-Tokens", "None"),
               ("X-Candidates-Tokens", pyStr um.candidates_token_count),
               ("X-Total-Tokens", pyStr um.total_token_count)]) := by
  intro resp fmt
  refine ⟨?_, ?_, ?_⟩
  · intro h
    unfold usage_data_of_response build_response_headers
    rw [h]
    exact ⟨rfl, rfl⟩
  · intro p c t h
    unfold usage_data_of_response build_response_headers
    rw [h]
    exact ⟨rfl, rfl⟩
  · intro um h hp
    unfold usage_data_of_response build_response_headers
    rw [h]
    obtain ⟨up, uc, ut⟩ := um
    cases hp
    exact ⟨rfl, rfl⟩

/-- Witness for C6: full counters pass through unchanged. -/
theorem claim_c6_witness :
    usage_data_of_response respStructured =
      Except.ok { prompt_token_count := 5, candidates_token_count := 7, total_token_count := 12 }
    ∧ build_response_headers "text" respStructured =
      Except.ok
        [("Content-Disposition", "attachment; filename=\"ketqua.text\""),
         ("X-Prompt-Tokens", toString (5 : Int)),
         ("X-Candidates-Tokens", toString (7 : Int)),
         ("X-Total-Tokens", toString (12 : Int))] :=
  (claim_c6 respStructured "text").2.1 5 7 12 rfl

/-- Counterexample for C7: the claim says a remote resource declaring a
size above the configured maximum makes summarize-url fail with an
oversize error before any full-body download.  In `envBig` the remote
resource declares Content-Length 99999999 — above `MAX_REQUEST_SIZE` — yet
the full-body GET is issued as the very first action and the summarization
completes successfully; no size probe and no failure of any kind occur. -/
theorem claim_c7_counterexample :
    (99999999 : Int) > MAX_REQUEST_SIZE
    ∧ headerGet bigResp.headers "Content-Length" = some "99999999"
    ∧ Event.http (mainRequest "http://x") ∈ (summarize_url envBig "http://x" none none).snd
    ∧ (summarize_url envBig "http://x" none none).fst = Except.ok respStructured := by
  refine ⟨by decide, by decide, by decide, by decide⟩

/-- Claim C7 as amended: `summarize_url` performs no header-only metadata
probe and no remote-size check at all — its first action is always the
full-body GET of the URL, and no HEAD request ever appears on its trace —
while the only size guard in the repository is the inbound-request
Content-Length dependency, which rejects bodies above the 15 MiB
`MAX_REQUEST_SIZE` with HTTP 413 and does not inspect the remote
resource. -/
theorem claim_c7 :
    (∀ (env : Env) (url : String) (length tone : Option String),
      ((summarize_url env url length tone).snd).head? = some (Event.http (mainRequest url)))
    ∧ (∀ (env : Env) (url : String) (length tone : Option String) (e : Event),
        e ∈ (summarize_url env url length tone).snd → eventIsHead e = false)
    ∧ limit_content_length (some "99999999") =
        Except.error (PyError.httpException 413 "Request payload is too large. Limit is 15.00 MB.")
    ∧ MAX_REQUEST_SIZE = 15 * 1024 * 1024 := by
  refine ⟨?_, ?_, by decide, rfl⟩
  · intro env url length tone
    unfold summarize_url
    dsimp only
    repeat first | rfl | split
  · intro env url length tone e he
    unfold summarize_url at he
    dsimp only at he
    split at he
    · simp at he; subst he; rfl
    · split at he
      · simp at he; subst he; rfl
      · split at he
        · simp at he
          rcases he with he | he
          · subst he; rfl
          · rcases summarize_pdf_files_trace_events _ _ _ _ _ _ he with h | ⟨s, h⟩ <;>
              (subst h; rfl)
        · split at he
          · split at he
            · split at he
              · simp at he
                rcases he with he | he <;> (subst he; rfl)
              · simp at he
                rcases he with he | he | he
                · subst he; rfl
                · subst he; rfl
                · rcases summarize_pdf_files_trace_events _ _ _ _ _ _ he with h | ⟨s, h⟩ <;>
                    (subst h; rfl)
            · split at he
              · simp at he; subst he; rfl
              · simp at he
                rcases he with he | he
                · subst he; rfl
                · have h := summarize_text_trace_events _ _ _ _ _ he
                  subst h; rfl
          · simp at he; subst he; rfl

/-- Witness for C7: the sole trace event of the 404 run is the full GET,
which is not a HEAD probe. -/
theorem claim_c7_witness :
    eventIsHead (Event.http (mainRequest "http://x")) = false :=
  claim_c7.2.1 env404 "http://x" none none (Event.http (mainRequest "http://x")) (by decide)

lemma wrapPdf_eq_ok {x : Except PyError GenerateContentResponse}
    {r : GenerateContentResponse} (h : wrapPdf x = Except.ok r) :
    x = Except.ok r := by
  unfold wrapPdf at h
  split at h
  · exact h
  · exact absurd h (by simp)

lemma summarize_text_fst_ok (env : Env) (text : String)
    (length tone : Option String) (r : GenerateContentResponse)
    (h : (summarize_text env text length tone).fst = Except.ok r) :
    env.model (textCall (pyReplaceNl text) length tone) = Except.ok r ∧
      (summarize_text env text length tone).snd =
        [Event.gen (textCall (pyReplaceNl text) length tone)] := by
  by_cases hemp : pyReplaceNl text = ""
  · simp [summarize_text, hemp] at h
  · cases hm : env.model (textCall (pyReplaceNl text) length tone) with
    | ok resp =>
        refine ⟨?_, ?_⟩ <;> simp [summarize_text, hemp, hm] at h ⊢
        exact h
    | error e => simp [summarize_text, hemp, hm] at h

/-- Claim C8 (implicit).  When `summarize_pdf_files` succeeds, its trace is
exactly the two model calls of the pipeline and the returned response is
verbatim the response of the second (structuring) call; the step-1 response
contributes only its text, so the usage counters surfaced to the caller are
those of step 2 alone and the step-1 usage is discarded. -/
theorem claim_c8 :
    ∀ (env : Env) (fc : PyFiles) (length tone : Option String) (mime_type : String)
      (r : GenerateContentResponse) (tr : List Event),
      summarize_pdf_files env fc length tone mime_type = (Except.ok r, tr) →
      ∃ resp1 : GenerateContentResponse,
        env.model (pdfStepOneCall fc length tone mime_type) = Except.ok resp1
        ∧ env.model (textCall (pyReplaceNl resp1.text) none none) = Except.ok r
        ∧ tr = [Event.gen (pdfStepOneCall fc length tone mime_type),
                Event.gen (textCall (pyReplaceNl resp1.text) none none)] := by
  intro env fc length tone mime_type r tr h
  unfold summarize_pdf_files at h
  dsimp only at h
  split at h
  · simp at h
  · split at h
    · simp at h
    · rename_i text_response heq
      rw [Prod.mk.injEq] at h
      obtain ⟨h1, h2⟩ := h
      have hx := wrapPdf_eq_ok h1
      obtain ⟨hm2, hsnd⟩ := summarize_text_fst_ok env text_response.text none none r hx
      refine ⟨text_response, heq, hm2, ?_⟩
      rw [← h2, hsnd]

/-- Witness for C8: the concrete two-call pipeline run, whose result is the
second response with its own usage counters. -/
theorem claim_c8_witness :
    ∃ resp1 : GenerateContentResponse,
      env0.model (pdfStepOneCall (PyFiles.list [[1, 2]]) none none "application/pdf") = Except.ok resp1
      ∧ env0.model (textCall (pyReplaceNl resp1.text) none none) = Except.ok respStructured
      ∧ [Event.gen (pdfStepOneCall (PyFiles.list [[1, 2]]) none none "application/pdf"),
          Event.gen (textCall (pyReplaceNl respNarrative.text) none none)] =
          [Event.gen (pdfStepOneCall (PyFiles.list [[1, 2]]) none none "application/pdf"),
           Event.gen (textCall (pyReplaceNl resp1.text) none none)] :=
  claim_c8 env0 (PyFiles.list [[1, 2]]) none none "application/pdf" respStructured
    [Event.gen (pdfStepOneCall (PyFiles.list [[1, 2]]) none none "application/pdf"),
     Event.gen (textCall (pyReplaceNl respNarrative.text) none none)]
    (by decide)

/-- Claim C9 (implicit).  The step-1 call of the PDF pipeline carries the
caller-supplied length and tone (its instruction is
`build_dynamic_instruction length tone False`), while every other model
call the pipeline can issue is a `summarize_text` call with length and tone
absent, whose system instruction is the fixed two-line structured base —
containing no length and no tone directive — regardless of what the caller
supplied. -/
theorem claim_c9 :
    ∀ (env : Env) (fc : PyFiles) (length tone : Option String) (mime_type : String),
      ((pdfStepOneCall fc length tone mime_type).config.system_instruction =
        build_dynamic_instruction length tone false)
      ∧ (∀ s : String, (textCall s none none).config.system_instruction =
          String.intercalate "\n"
            ["You are an expert summarizer. Your task is to produce a summary and a compelling title for the given content.",
             "Your final output MUST be a JSON object matching the provided schema."])
      ∧ build_dynamic_instruction_list none none true =
          ["You are an expert summarizer. Your task is to produce a summary and a compelling title for the given content.",
           "Your final output MUST be a JSON object matching the provided schema."]
      ∧ (∀ c : ModelCall,
          Event.gen c ∈ (summarize_pdf_files env fc length tone mime_type).snd →
          c = pdfStepOneCall fc length tone mime_type ∨ ∃ s : String, c = textCall s none none) := by
  intro env fc length tone mime_type
  refine ⟨rfl, fun s => rfl, rfl, ?_⟩
  intro c hc
  rcases summarize_pdf_files_trace_events env fc length tone mime_type _ hc with h | ⟨s, h⟩
  · left
    injection h
  · right
    refine ⟨s, ?_⟩
    injection h

/-- Witness for C9: the second call of a concrete pipeline run is a
`summarize_text` call with length and tone absent. -/
theorem claim_c9_witness :
    textCall (pyReplaceNl respNarrative.text) none none =
      pdfStepOneCall (PyFiles.list [[9]]) none none "application/pdf"
    ∨ ∃ s : String, textCall (pyReplaceNl respNarrative.text) none none = textCall s none none :=
  (claim_c9 env0 (PyFiles.list [[9]]) none none "application/pdf").2.2.2
    (textCall (pyReplaceNl respNarrative.text) none none) (by decide)

/-- Claim C10 (implicit).  When the fetched page is HTML (not PDF) and its
parsed form carries a PDF embed tag with a non-empty `src`, `summarize_url`
does not summarize the extracted page text: it resolves the `src` against
the page URL with `urljoin`, issues the full GET of that PDF URL, and hands
the downloaded body to the PDF pipeline — with no hypothesis on (hence no
check of) the status code of the PDF download. -/
theorem claim_c10 :
    ∀ (env : Env) (url : String) (length tone : Option String)
      (resp : HttpResponse) (src : String) (pdf_response : HttpResponse),
      env.net (mainRequest url) = Except.ok resp →
      is_success resp.status_code = true →
      containsSub (pyLower ((headerGet resp.headers "Content-Type").getD "")) "application/pdf" = false →
      containsSub (pyLower ((headerGet resp.headers "Content-Type").getD "")) "text/html" = true →
      (env.html resp.content).embed_tag = some (some src) →
      src ≠ "" →
      env.net (pdfRequest (env.urljoin url src)) = Except.ok pdf_response →
      summarize_url env url length tone =
        ((summarize_pdf_files env (PyFiles.bytes pdf_response.content) length tone).fst,
         Event.http (mainRequest url)
           :: Event.http (pdfRequest (env.urljoin url src))
           :: (summarize_pdf_files env (PyFiles.bytes pdf_response.content) length tone).snd) := by
  intro env url length tone resp src pdf_response h1 h2 h3 h4 h5 h6 h7
  unfold summarize_url
  dsimp only
  rw [h1]
  dsimp only
  rw [h2, h3, h4, h5]
  simp [h6, h7]

/-- Witness for C10: the embedded-PDF route on `envEmbed`, whose PDF
download answers 404 — the body is summarized regardless. -/
theorem claim_c10_witness :
    summarize_url envEmbed "http://site/page" none none =
      ((summarize_pdf_files envEmbed (PyFiles.bytes pdf404.content) none none).fst,
       Event.http (mainRequest "http://site/page")
         :: Event.http (pdfRequest "http://site/page/doc.pdf")
         :: (summarize_pdf_files envEmbed (PyFiles.bytes pdf404.content) none none).snd) :=
  claim_c10 envEmbed "http://site/page" none none pageResp "doc.pdf" pdf404
    (by decide) (by decide) (by decide) (by decide) (by decide) (by decide) (by decide)
